import Mathlib

/-!
Verification of the leetcode-leaderboard cache-and-refresh service.

Shallow embedding of `src/src/app/api/leetcode/route.ts` (the Prisma-based
route handler: cache partition, batched parallel fetch, streak calculation,
response assembly, audit logging) and of the retrying fetch client found in
the redis variant `src/unnamed/part_002`.

Conventions of the embedding:
* Epoch-second timestamps and epoch-millisecond instants are `Int`
  (the JS code manipulates them as exact integers in this range).
* Counters are `Nat`.
* A JS value that may be `null`/`undefined` is an `Option`.
* `JSON.parse(submissionCalendar)` followed by `Object.keys(..).map(parseInt)`
  is modelled by carrying the already-parsed key list
  `Option (List Int)` (`none` = field absent or unparsable: both leave
  `acceptedSubmissions` empty in the source).
* Remote calls and database reads are oracles passed as parameters;
  a thrown exception in a remote call corresponds to the oracle
  returning the value the surrounding `catch` produces in the source.
-/

set_option maxRecDepth 4096

/-- One entry of `submitStats.acSubmissionNum` in the upstream reply. -/
structure AcNum where
  difficulty : String
  count : Nat
  submissions : Nat
deriving DecidableEq

/-- `matchedUser.profile` (only the fields the route reads). -/
structure LcProfile where
  realName : String
  userAvatar : String
deriving DecidableEq

/-- `matchedUser.submitStats`; `acSubmissionNum` may be absent
(the route guards with `submitStats?.acSubmissionNum?`). -/
structure SubmitStats where
  acSubmissionNum : Option (List AcNum)
deriving DecidableEq

/-- `matchedUser` of the upstream reply. `submissionCalendar` carries the
parsed epoch-second keys of the JSON calendar (`none` = absent/unparsable). -/
structure MatchedUser where
  username : String
  profile : Option LcProfile
  submitStats : Option SubmitStats
  submissionCalendar : Option (List Int)
deriving DecidableEq

/-- `UserProfile` as returned by `leetcode.user`: `matchedUser` is null for
an unknown username. -/
structure UserProfile where
  matchedUser : Option MatchedUser
deriving DecidableEq

/-- `problemsByDifficulty` of the route's `UserData`. -/
structure Difficulty where
  easy : Nat
  medium : Nat
  hard : Nat
deriving DecidableEq

/-- `streak` of the route's `UserData`. -/
structure Streak where
  current : Nat
  max : Nat
deriving DecidableEq

/-- `UserData`: the per-user record the route caches and serves.
The source marks `streak` optional but every constructor of the record
sets it, so it is total here. -/
structure UserData where
  id : String
  name : String
  avatar : String
  totalSolved : Nat
  problemsByDifficulty : Difficulty
  submissions : Nat
  acceptedSubmissions : List Int
  streak : Streak
deriving DecidableEq

/-- `ErrorData`: `{username, error}`. -/
structure ErrorData where
  username : String
  error : String
deriving DecidableEq

/-- A row of the `leetcode_users` table (`model LeetCodeUser` of the Prisma
schema); `lastFetch` in epoch milliseconds, `submissionCalendar` as its
parsed key list. -/
structure DbUser where
  id : String
  name : String
  avatar : String
  totalSolved : Nat
  easyCount : Nat
  mediumCount : Nat
  hardCount : Nat
  submissions : Nat
  currentStreak : Nat
  maxStreak : Nat
  submissionCalendar : Option (List Int)
  lastFetch : Int
deriving DecidableEq

/-- One `fetchLog.create` record: `{success, error?}` (the timestamp column
is supplied by the database). -/
structure AuditEntry where
  success : Bool
  error : Option String
deriving DecidableEq

/-- The JSON body plus HTTP status of a route response. `none` for a field
means the key is absent from the object (`undefined` in the source). -/
structure RouteResponse where
  users : List UserData
  refreshing : Option (List String)
  errors : List ErrorData
  fromCache : Option Bool
  emergency : Option Bool
  status : Nat
deriving DecidableEq

/-- The hard-coded roster of `route.ts`. -/
def usernames : List String :=
  ["Kho_ja", "jdu211171", "Ismoilova1031", "edSJVRbEh6",
   "pardayevotabek30gmailcom", "ayunusov238", "Fazliddin_001", "Amrullayev",
   "abdufattohcoder2004", "MrPyDeveloper", "javohir07",
   "otajonovmuhammadali", "agadev", "muza_Sano", "yamamoto05",
   "Ibroximov_Diyorbek", "Daydi"]

/-- `CACHE_EXPIRY_MS = 5 * 60 * 60 * 1000` (the comment in the source says
"1 hour" but the value is five hours). -/
def CACHE_EXPIRY_MS : Int := 5 * 60 * 60 * 1000

/-- `MAX_CONCURRENT_REQUESTS = 5`. -/
def MAX_CONCURRENT_REQUESTS : Nat := 5

/-! ## Streak calculator (route.ts lines 313-385) -/

/-- Insert into an ascending list (helper of `sortAsc`). -/
def insertAsc (x : Int) : List Int → List Int
  | [] => [x]
  | y :: ys => if x ≤ y then x :: y :: ys else y :: insertAsc x ys

/-- `[...acceptedSubmissions].sort((a, b) => a - b)`: numeric ascending sort
(insertion sort produces the same value list as any comparison sort). -/
def sortAsc : List Int → List Int
  | [] => []
  | x :: xs => insertAsc x (sortAsc xs)

/-- The backward `while (true)` walk of the current-streak branch: starting
from `checkDate`, count consecutive day windows `[checkDate, checkDate+86400)`
(moving back 86400 each step) that contain a submission; stop at the first
empty window.  `fuel` bounds the recursion; called with
`fuel = sorted.length` it computes exactly the loop's value: each successful
iteration needs a submission in a fresh window, the windows of successive
iterations are pairwise disjoint, so after `sorted.length` successes every
element is consumed and the next window is necessarily empty — precisely
where the JS loop breaks. -/
def backWalk (sorted : List Int) : Nat → Int → Nat
  | 0, _ => 0
  | fuel + 1, checkDate =>
    if sorted.any (fun d => checkDate ≤ d && d < checkDate + 86400) then
      1 + backWalk sorted fuel (checkDate - 86400)
    else
      0

/-- The forward `for (const date of sortedSubmissions)` pass
(route.ts lines 361-371), threading `lastDate`, `currentStreak`,
`maxStreak` exactly as the source does. -/
def forwardPass : List Int → Int → Nat → Nat → Nat × Nat
  | [], _, cur, mx => (cur, mx)
  | d :: rest, lastDate, cur, mx =>
    if lastDate = 0 ∨ d - lastDate ≤ 24 * 60 * 60 * 2 then
      if lastDate = 0 ∨ d - lastDate ≥ 12 * 60 * 60 then
        forwardPass rest d (cur + 1) mx
      else
        forwardPass rest d cur mx
    else
      forwardPass rest d 1 (Nat.max mx cur)

/-- The route's streak computation for a non-empty `acceptedSubmissions`,
with `now = Date.now() / 1000` passed explicitly: the last-24h anchored
backward walk seeds `currentStreak`/`maxStreak`, then the forward pass
continues on the same accumulators, then `max = Nat.max max current`. -/
def streakBody (now : Int) (subs : List Int) : Streak :=
  let sorted := sortAsc subs
  let oneDayAgo := now - 24 * 60 * 60
  let hasSubmissionToday := sorted.any (fun d => oneDayAgo ≤ d && d ≤ now)
  let seed : Nat × Nat :=
    if hasSubmissionToday then
      let streakDays := backWalk sorted sorted.length (oneDayAgo - 24 * 60 * 60)
      (1 + streakDays, Nat.max (1 + streakDays) 0)
    else
      (0, 0)
  let fin := forwardPass sorted 0 seed.1 seed.2
  { current := fin.1, max := Nat.max fin.2 fin.1 }

/-- The full streak branch of `processUserData`: empty input yields
`{current := 0, max := 0}` (route.ts line 383-385). -/
def streakOf (now : Int) (subs : List Int) : Streak :=
  if subs.isEmpty then { current := 0, max := 0 } else streakBody now subs

example : streakOf 1000000 [] = { current := 0, max := 0 } := by decide

/-! ## processUserData (route.ts lines 268-404) -/

/-- `acSubmissionNum.find(s => s.difficulty === d)?.count || 0` behind the
two optional chains `submitStats?.acSubmissionNum?`. -/
def findCount (ss : Option SubmitStats) (d : String) : Nat :=
  match ss with
  | none => 0
  | some s =>
    match s.acSubmissionNum with
    | none => 0
    | some l => ((l.find? (fun a => a.difficulty = d)).map (fun a => a.count)).getD 0

/-- `acSubmissionNum.find(s => s.difficulty === "All")?.submissions || 0`. -/
def findSubmissions (ss : Option SubmitStats) : Nat :=
  match ss with
  | none => 0
  | some s =>
    match s.acSubmissionNum with
    | none => 0
    | some l =>
      ((l.find? (fun a => a.difficulty = "All")).map (fun a => a.submissions)).getD 0

/-- The body of the `processUserData` loop for a present `matchedUser`:
builds the `UserData` pushed to `users`. `profile?.realName || leetUsername`
falls back on a missing profile or an empty name; `profile?.userAvatar || ''`
likewise. -/
def mkUserData (now : Int) (mu : MatchedUser) : UserData :=
  let easy := findCount mu.submitStats "Easy"
  let medium := findCount mu.submitStats "Medium"
  let hard := findCount mu.submitStats "Hard"
  let acceptedSubmissions := mu.submissionCalendar.getD []
  { id := mu.username
    name :=
      match mu.profile with
      | none => mu.username
      | some p => if p.realName = "" then mu.username else p.realName
    avatar :=
      match mu.profile with
      | none => ""
      | some p => p.userAvatar
    totalSolved := easy + medium + hard
    problemsByDifficulty := { easy := easy, medium := medium, hard := hard }
    submissions := findSubmissions mu.submitStats
    acceptedSubmissions := acceptedSubmissions
    streak := streakOf now acceptedSubmissions }

/-- What the loop body contributes for `results[i]`: `none` when the error
branch fires (`!result || !result.matchedUser`). -/
def resultToUser (now : Int) (r : UserProfile) : Option UserData :=
  r.matchedUser.map (mkUserData now)

/-- The `for (let i = 0; i < usernames.length; i++)` loop of
`processUserData`, walking the roster with its index: `results[i]`
missing-or-without-`matchedUser` appends an `ErrorData` for the roster name
at position `i`, otherwise the built record is appended to `users`. -/
def processGo (now : Int) (results : List UserProfile) :
    List String → Nat → List UserData × List ErrorData
  | [], _ => ([], [])
  | uname :: rest, i =>
    let tail := processGo now results rest (i + 1)
    match results.get? i with
    | none => (tail.1, ⟨uname, "Failed to fetch user data"⟩ :: tail.2)
    | some r =>
      match r.matchedUser with
      | none => (tail.1, ⟨uname, "Failed to fetch user data"⟩ :: tail.2)
      | some mu => (mkUserData now mu :: tail.1, tail.2)

/-- `processUserData(results)`: iterates over the global `usernames` roster,
pairing `results[i]` with `usernames[i]`. -/
def processUserData (now : Int) (results : List UserProfile) :
    List UserData × List ErrorData :=
  processGo now results usernames 0

/-! ## Freshness cache (route.ts lines 62-143) -/

/-- The inline freshness test of `loadCachedUsers`:
`new Date(cachedUser.lastFetch).getTime() > Date.now() - CACHE_EXPIRY_MS`
(the preceding `cachedUser.lastFetch &&` guard is vacuous: a Prisma
`DateTime` materialises as a `Date` object, which is always truthy). -/
def isCacheFresh (lastFetch now ttl : Int) : Bool :=
  lastFetch > now - ttl

/-- Formatting of a database row into the served `UserData`
(route.ts lines 94-111 and 117-134, identical bodies). -/
def rowToUserData (row : DbUser) : UserData :=
  { id := row.id
    name := row.name
    avatar := row.avatar
    totalSolved := row.totalSolved
    problemsByDifficulty :=
      { easy := row.easyCount, medium := row.mediumCount, hard := row.hardCount }
    submissions := row.submissions
    acceptedSubmissions := row.submissionCalendar.getD []
    streak := { current := row.currentStreak, max := row.maxStreak } }

/-- The per-username loop of `loadCachedUsers`: a missing row goes to
`usersToRefresh`; a fresh row goes to the served list; a stale row goes to
both. -/
def loadGo (now : Int) (rows : List DbUser) :
    List String → List UserData × List String
  | [] => ([], [])
  | uname :: rest =>
    let tail := loadGo now rows rest
    match rows.find? (fun r => r.id = uname) with
    | none => (tail.1, uname :: tail.2)
    | some row =>
      if isCacheFresh row.lastFetch now CACHE_EXPIRY_MS then
        (rowToUserData row :: tail.1, tail.2)
      else
        (rowToUserData row :: tail.1, uname :: tail.2)

/-- `loadCachedUsers(usersToFetch)`: reads the rows whose ids are in the
request (modelled by a lookup over the table; `Except.error` is the
`catch` branch of a failing database read, which yields no cached users and
schedules every name). Returns `(cachedUsers, usersToRefresh)`. -/
def loadCachedUsers (now : Int) (db : Except Unit (List DbUser))
    (usersToFetch : List String) : List UserData × List String :=
  match db with
  | .error _ => ([], usersToFetch)
  | .ok rows => loadGo now rows usersToFetch

/-! ## Batched parallel fetch (route.ts lines 217-263)

`fetchLeetCodeUser` wraps `leetcode.user(username)` in a `try`/`catch`
returning `null` on any failure — a 429, a network error and a timeout are
all indistinguishably `null`.  The oracle below is that function: for each
username it yields `some profile` or `none`. -/

/-- `fetchUsersInParallel(usernames)`: processes the list in slices of
`MAX_CONCURRENT_REQUESTS`, fetches one slice "in parallel" (the joined
`Promise.all` is a map in this deterministic embedding), keeps the non-null
results in order, and continues with the next slice unconditionally — no
failure interrupts the batching. -/
def fetchUsersInParallel (oracle : String → Option UserProfile) :
    (names : List String) → List UserProfile
  | [] => []
  | name :: more =>
    let batch := (name :: more).take MAX_CONCURRENT_REQUESTS
    let rest := (name :: more).drop MAX_CONCURRENT_REQUESTS
    batch.filterMap oracle ++ fetchUsersInParallel oracle rest
termination_by names => names.length
decreasing_by
  simp only [MAX_CONCURRENT_REQUESTS, List.length_drop, List.length_cons]
  omega

/-! ## Persistence and audit (route.ts lines 148-212, 409-445, 450-553) -/

/-- The audit entries `saveUserData(userData)` appends: none on success; on
a storage failure its `catch` writes one `fetchLog` row
`{success: false, error}`.  Success or failure of the upsert is an oracle
on the record's key. -/
def saveAudit (saveOk : String → Bool) (u : UserData) : List AuditEntry :=
  if saveOk u.id then [] else [⟨false, some "Failed to save user data"⟩]

/-- Audit entries of `refreshUsersInBackground(usersToRefresh)`: an empty
list returns immediately; otherwise every user is fetched (all batches),
processed, saved (each failing save logging one entry), and one
`{success: true, ...}` completion entry is appended.  (The surrounding
`catch`, reachable only through a thrown storage error, is outside this
deterministic model.) -/
def refreshAudit (nowSec : Int) (oracle : String → Option UserProfile)
    (saveOk : String → Bool) (usersToRefresh : List String) : List AuditEntry :=
  if usersToRefresh.isEmpty then []
  else
    let results := fetchUsersInParallel oracle usersToRefresh
    let processed := processUserData nowSec results
    (processed.1.map (saveAudit saveOk)).flatten ++
      [⟨true, some "Background refresh completed"⟩]

/-- The non-throwing path of `GET` (route.ts lines 450-493), returning the
response together with every audit entry the cycle writes (including those
of the spawned background refresh).  `nowMs` feeds the freshness test,
`nowSec` the streak calculator. -/
def GETmain (nowMs nowSec : Int) (db : Except Unit (List DbUser))
    (oracle : String → Option UserProfile) (saveOk : String → Bool) :
    RouteResponse × List AuditEntry :=
  let loaded := loadCachedUsers nowMs db usernames
  let cachedUsers := loaded.1
  let usersToRefresh := loaded.2
  let bgAudit :=
    if usersToRefresh.length > 0 then refreshAudit nowSec oracle saveOk usersToRefresh
    else []
  if cachedUsers.length > 0 then
    ({ users := cachedUsers
       refreshing := if usersToRefresh.length > 0 then some usersToRefresh else none
       errors := []
       fromCache := some true
       emergency := none
       status := 200 }, bgAudit)
  else
    let quickFetchUsers := usersToRefresh.take 3
    let quickResults := fetchUsersInParallel oracle quickFetchUsers
    let processed := processUserData nowSec quickResults
    let quickSaves := (processed.1.map (saveAudit saveOk)).flatten
    let remainingUsers := usersToRefresh.drop 3
    let remAudit :=
      if remainingUsers.length > 0 then refreshAudit nowSec oracle saveOk remainingUsers
      else []
    ({ users := processed.1
       refreshing := if remainingUsers.length > 0 then some remainingUsers else none
       errors := processed.2
       fromCache := none
       emergency := none
       status := 200 }, quickSaves ++ remAudit)

/-- The `catch` branch of `GET` (route.ts lines 494-552): one failure audit
entry, then the emergency read of the whole table — a non-empty snapshot is
served with `fromCache` and `emergency` set at status 200; an empty or
unreadable snapshot falls through to the status-500 payload. -/
def GETcatch (errMsg : String) (snapshot : Except Unit (List DbUser)) :
    RouteResponse × List AuditEntry :=
  let audit : List AuditEntry := [⟨false, some errMsg⟩]
  let fallback : RouteResponse :=
    { users := []
      refreshing := none
      errors := [⟨"ALL", "An unexpected error occurred: " ++ errMsg⟩]
      fromCache := none
      emergency := none
      status := 500 }
  match snapshot with
  | .error _ => (fallback, audit)
  | .ok rows =>
    if rows.length > 0 then
      ({ users := rows.map rowToUserData
         refreshing := none
         errors := [⟨"SYSTEM", "Error occurred, showing cached data: " ++ errMsg⟩]
         fromCache := some true
         emergency := some true
         status := 200 }, audit)
    else (fallback, audit)

/-! ## Retrying fetch client (src/unnamed/part_002 lines 166-287) -/

/-- `ApiResult` of the redis variant: an error with an HTTP-like status, or
the matched user. -/
structure ApiResult where
  error : Option String
  status : Option Nat
  matchedUser : Option MatchedUser
deriving DecidableEq

/-- The parsed JSON body of one upstream reply: GraphQL-level errors and
the (possibly null) `data.data.matchedUser`. -/
structure RespBody where
  hasErrors : Bool
  matchedUser : Option MatchedUser
deriving DecidableEq

/-- Outcome of one attempt of the redis variant's `fetchLeetCodeUser`:
either `fetch`/`response.text()` throws (network error, timeout), or a
response arrives with `ok`, `status`, and a body that parses to
`some RespBody` or throws on `JSON.parse` (`none`). -/
inductive FetchAttempt where
  | throws (msg : String)
  | responds (ok : Bool) (status : Nat) (body : Option RespBody)
deriving DecidableEq

/-- `MAX_RETRIES = 2` of the redis variant. -/
def MAX_RETRIES : Nat := 2

/-- `REQUEST_DELAY_MS = 500` of the redis variant. -/
def REQUEST_DELAY_MS : Nat := 500

/-- The `while (retries <= MAX_RETRIES)` loop of the redis variant's
`fetchLeetCodeUser`, attempt outcomes supplied by `oracle` per retry
index.  Returns the `ApiResult` and the list of pre-attempt sleep delays
(`REQUEST_DELAY_MS * (retries + 1)`), whose length is the number of
attempts made.  Only a thrown error or an unparsable body re-enters the
loop; every parsed response returns at once.  `fuel = MAX_RETRIES + 1`
matches the loop exactly: the recursive call is made only when
`retries + 1 ≤ MAX_RETRIES`, so fuel never runs out before the loop's own
exit. -/
def fetchGo (oracle : Nat → FetchAttempt) :
    Nat → Nat → List Nat → ApiResult × List Nat
  | 0, _, trace => (⟨some "Maximum retries exceeded", some 500, none⟩, trace)
  | fuel + 1, retries, trace =>
    if retries ≤ MAX_RETRIES then
      let trace := trace ++ [REQUEST_DELAY_MS * (retries + 1)]
      match oracle retries with
      | .throws msg =>
        if retries + 1 > MAX_RETRIES then (⟨some msg, some 500, none⟩, trace)
        else fetchGo oracle fuel (retries + 1) trace
      | .responds ok status body =>
        match body with
        | none =>
          if retries + 1 > MAX_RETRIES then
            (⟨some "Invalid JSON response from LeetCode API", some 500, none⟩, trace)
          else fetchGo oracle fuel (retries + 1) trace
        | some b =>
          if !ok then
            if status = 429 then
              (⟨some "Rate limited by LeetCode API", some 429, none⟩, trace)
            else if status = 400 then
              (⟨some "Bad request", some 400, none⟩, trace)
            else (⟨some "HTTP error", some status, none⟩, trace)
          else if b.hasErrors then
            (⟨some "GraphQL error", some 200, none⟩, trace)
          else
            match b.matchedUser with
            | none => (⟨some "User not found", some 404, none⟩, trace)
            | some mu => (⟨none, none, some mu⟩, trace)
    else (⟨some "Maximum retries exceeded", some 500, none⟩, trace)

/-- The redis variant's `fetchLeetCodeUser(username)` as a function of its
per-attempt outcomes: result plus the sleep-delay trace. -/
def fetchLeetCodeUserRetry (oracle : Nat → FetchAttempt) : ApiResult × List Nat :=
  fetchGo oracle (MAX_RETRIES + 1) 0 []

/-! ## Concrete fixtures used by witnesses and counterexamples -/

/-- A fetch result whose `matchedUser` is null (unknown username: the
upstream resolves without throwing, so `fetchUsersInParallel` keeps it). -/
def badProfile : UserProfile := ⟨none⟩

/-- A minimal successful fetch result for user "u". -/
def goodProfile : UserProfile := ⟨some ⟨"u", none, none, none⟩⟩

/-- An oracle for a refresh run over six usernames in which every fetch of
the first batch fails (e.g. rate-limited: `leetcode.user` throws, the
`catch` yields `null`) and the sixth user — in the second batch — succeeds. -/
def c5Oracle : String → Option UserProfile :=
  fun name => if name = "u6" then some goodProfile else none

/-- A table row for username `u` written at instant 0 (fresh at `nowMs = 0`
for the five-hour TTL). -/
def mkFreshRow (u : String) : DbUser :=
  { id := u, name := u, avatar := "", totalSolved := 0, easyCount := 0,
    mediumCount := 0, hardCount := 0, submissions := 0, currentStreak := 0,
    maxStreak := 0, submissionCalendar := none, lastFetch := 0 }

/-! ## Shared lemmas -/

/-- The batching of `fetchUsersInParallel` is outcome-invisible: every
username of every batch is attempted and the non-null results are kept in
order, whatever failures occur along the way. -/
theorem fetchUsersInParallel_eq_filterMap (oracle : String → Option UserProfile) :
    ∀ names : List String,
      fetchUsersInParallel oracle names = names.filterMap oracle := by
  intro names
  generalize hn : names.length = n
  induction n using Nat.strong_induction_on generalizing names with
  | _ n ih =>
    match names with
    | [] => rw [fetchUsersInParallel]; rfl
    | name :: more =>
      rw [fetchUsersInParallel]
      rw [ih ((name :: more).drop MAX_CONCURRENT_REQUESTS).length
        (by subst hn; simp [MAX_CONCURRENT_REQUESTS]; omega) _ rfl]
      rw [← List.filterMap_append, List.take_append_drop]

/-- The `users` output of the `processUserData` loop, when the results
array is no longer than the roster, is exactly the in-order image of the
results that carry a `matchedUser` — position influences only error
attribution. -/
theorem processGo_users (now : Int) (results : List UserProfile) :
    ∀ (names : List String) (i : Nat), results.length ≤ i + names.length →
      (processGo now results names i).1 =
        (results.drop i).filterMap (resultToUser now) := by
  intro names
  induction names with
  | nil =>
    intro i h
    have h' : results.length ≤ i := by simpa using h
    rw [List.drop_eq_nil_of_le h']
    rfl
  | cons uname rest ih =>
    intro i h
    simp only [List.length_cons] at h
    simp only [processGo]
    cases hg : results.get? i with
    | none =>
      have hlen : results.length ≤ i := List.get?_eq_none.mp hg
      rw [ih (i + 1) (by omega)]
      rw [List.drop_eq_nil_of_le hlen, List.drop_eq_nil_of_le (by omega)]
    | some r =>
      have hlt : i < results.length := by
        by_contra hc
        rw [List.get?_eq_none.mpr (by omega)] at hg
        exact Option.noConfusion hg
      have hdrop : results.drop i = results[i] :: results.drop (i + 1) :=
        List.drop_eq_getElem_cons hlt
      have hr : results[i] = r := by
        have := List.get?_eq_getElem? results i
        rw [hg] at this
        exact (List.getElem?_eq_some.mp this.symm).2
      rw [hdrop, hr, List.filterMap_cons]
      cases hm : r.matchedUser with
      | none => simp only [resultToUser, hm, Option.map_none']; exact ih (i + 1) (by omega)
      | some mu =>
        simp only [resultToUser, hm, Option.map_some']
        rw [ih (i + 1) (by omega)]

/-- When every save succeeds, the per-save audit entries vanish. -/
theorem saveAudit_flatten_nil (saveOk : String → Bool)
    (h : ∀ s, saveOk s = true) :
    ∀ us : List UserData, ((us.map (saveAudit saveOk)).flatten) = [] := by
  intro us
  induction us with
  | nil => rfl
  | cons u rest ih => simp [saveAudit, h, ih]

/-- When the cache partition yields at least one record, `GET` answers
immediately from it: `users` is exactly the partition's record list and
`fromCache` is set. -/
theorem GETmain_cache_hit (nowMs nowSec : Int) (db : Except Unit (List DbUser))
    (oracle : String → Option UserProfile) (saveOk : String → Bool)
    (h : (loadCachedUsers nowMs db usernames).1.length > 0) :
    (GETmain nowMs nowSec db oracle saveOk).1.users =
      (loadCachedUsers nowMs db usernames).1 ∧
    (GETmain nowMs nowSec db oracle saveOk).1.fromCache = some true := by
  simp only [GETmain]
  rw [if_pos h]
  exact ⟨rfl, rfl⟩

/-! ## Claim theorems -/

/-- C8: the freshness test of `loadCachedUsers` is
`lastFetch > now - ttl`, which equals `now - lastFetch < ttl`, and depends
only on that difference (translation-invariant); an entry written at `now`
is fresh for any positive TTL; an entry written at `now - ttl - 1` is
stale. -/
theorem isCacheFresh_spec (l n t d : Int) :
    isCacheFresh l n t = decide (n - l < t) ∧
    (0 < t → isCacheFresh n n t = true) ∧
    isCacheFresh (n - t - 1) n t = false ∧
    isCacheFresh (l + d) (n + d) t = isCacheFresh l n t := by
  refine ⟨?_, ?_, ?_, ?_⟩
  · simp only [isCacheFresh, decide_eq_decide]
    omega
  · intro ht
    simp only [isCacheFresh, decide_eq_true_eq]
    omega
  · simp only [isCacheFresh, decide_eq_false_iff_not]
    omega
  · simp only [isCacheFresh, decide_eq_decide]
    omega

/-- C8 witness: at `now = 0`, `ttl = CACHE_EXPIRY_MS`, an entry written at
0 is fresh and one written at `-ttl - 1` is stale. -/
theorem isCacheFresh_spec_witness :
    isCacheFresh 0 0 CACHE_EXPIRY_MS = true ∧
    isCacheFresh (0 - CACHE_EXPIRY_MS - 1) 0 CACHE_EXPIRY_MS = false :=
  ⟨(isCacheFresh_spec 0 0 CACHE_EXPIRY_MS 0).2.1 (by decide),
   (isCacheFresh_spec 0 0 CACHE_EXPIRY_MS 0).2.2.1⟩

/-- C3: at `now = 1000000` the timestamps 999990, 900000, 800000 occupy
exactly the three consecutive day buckets 11, 10, 9 ending "today"
(999990 lies within the last 24 hours), yet the route's streak code
returns `{current := 6, max := 6}` instead of the specified
`{current := 3, max := 3}`: the forward historical pass keeps running on
the accumulator already seeded by the backward walk, so each of the three
days is counted twice. -/
theorem streak_three_days_bug :
    (1000000 : Int) / 86400 = 11 ∧ (999990 : Int) / 86400 = 11 ∧
    (900000 : Int) / 86400 = 10 ∧ (800000 : Int) / 86400 = 9 ∧
    ((999990 : Int) ≥ 1000000 - 86400 ∧ (999990 : Int) ≤ 1000000) ∧
    streakOf 1000000 [999990, 900000, 800000] = { current := 6, max := 6 } := by
  decide

/-- C4: for a single timestamp within the last 24 hours the route's streak
code returns `{current := 2, max := 2}` (the claim says `{1, 1}`): the
backward walk counts the day, then the forward pass counts it again.  For
a single isolated old timestamp it returns `{current := 1, max := 1}` (the
claim says `{0, 1}`): the forward pass unconditionally counts the trailing
historical run into `current`, regardless of recency. -/
theorem streak_single_timestamp_bug :
    streakOf 1000000 [999990] = { current := 2, max := 2 } ∧
    ((999990 : Int) ≥ 1000000 - 86400) ∧
    streakOf 1000000 [100] = { current := 1, max := 1 } ∧
    ((100 : Int) < 1000000 - 86400) := by
  decide

/-- C1 counterexample: `processUserData` pairs `results[i]` with
`usernames[i]`, so permuting a results array that contains a failed entry
(`matchedUser` null) changes which roster username receives the
`ErrorRecord`: with `[badProfile, goodProfile]` the error is attributed to
"Kho_ja", with the permutation `[goodProfile, badProfile]` to
"jdu211171" — the set of (username, record) associations is not
permutation-invariant. -/
theorem processUserData_error_attribution_positional :
    (processUserData 0 [badProfile, goodProfile]).2 ≠
      (processUserData 0 [goodProfile, badProfile]).2 := by
  decide

/-- C1 amended: the association of successfully fetched records is indeed
order-independent by key — each built record carries its own
`matchedUser.username` as `id` (the upsert key of `saveUserData`), and the
`users` output of `processUserData` is permutation-invariant — but
`ErrorRecord` usernames are assigned by array position against the global
roster, so they are not. -/
theorem processUserData_users_perm_invariant (now : Int)
    (res₁ res₂ : List UserProfile) (mu : MatchedUser) :
    (res₁.length ≤ usernames.length → List.Perm res₁ res₂ →
      List.Perm (processUserData now res₁).1 (processUserData now res₂).1) ∧
    (mkUserData now mu).id = mu.username := by
  refine ⟨?_, rfl⟩
  intro hlen hperm
  have h₁ := processGo_users now res₁ usernames 0 (by simpa using hlen)
  have h₂ := processGo_users now res₂ usernames 0
    (by rw [← hperm.length_eq]; simpa using hlen)
  simp only [processUserData, h₁, h₂, List.drop_zero]
  exact hperm.filterMap (resultToUser now)

/-- C1 amended witness: the two permuted result arrays of the
counterexample produce permuted `users` lists, and a record's id is its
own username. -/
theorem processUserData_users_perm_invariant_witness :
    List.Perm (processUserData 0 [badProfile, goodProfile]).1
      (processUserData 0 [goodProfile, badProfile]).1 ∧
    (mkUserData 0 ⟨"u", none, none, none⟩).id = "u" :=
  ⟨(processUserData_users_perm_invariant 0 [badProfile, goodProfile]
      [goodProfile, badProfile] ⟨"u", none, none, none⟩).1
      (by decide) (by decide),
   (processUserData_users_perm_invariant 0 [] [] ⟨"u", none, none, none⟩).2⟩

/-- C5 counterexample: in a six-user refresh run where every first-batch
fetch fails (a rate-limited `leetcode.user` call throws and is caught to
`null`, indistinguishable from any other failure) the second batch is
still attempted and its success is returned — the run is not halted.
`route.ts`'s response type carries no `rateLimited` field at all. -/
theorem fetchUsersInParallel_rateLimit_no_halt :
    fetchUsersInParallel c5Oracle ["u1", "u2", "u3", "u4", "u5", "u6"] =
      [goodProfile] := by
  rw [fetchUsersInParallel_eq_filterMap]
  decide

/-- C5 amended: in `route.ts` no failure — rate-limit-driven or otherwise —
halts the batch loop: `fetchUsersInParallel` attempts every batch and
returns exactly the in-order non-null fetch results of the whole username
list (so in particular no fetch is retried at this level: each username is
consulted exactly once). -/
theorem fetchUsersInParallel_attempts_all_batches
    (oracle : String → Option UserProfile) (names : List String) :
    fetchUsersInParallel oracle names = names.filterMap oracle :=
  fetchUsersInParallel_eq_filterMap oracle names

/-- C6 counterexample: an HTTP 5xx reply — a `Transient` failure in the
claim's taxonomy — is returned by the redis variant's `fetchLeetCodeUser`
after a single attempt (delay trace `[500]`), with no retry: only thrown
errors and unparsable bodies re-enter the retry loop. -/
theorem fetchRetry_5xx_not_retried :
    fetchLeetCodeUserRetry (fun _ => .responds false 500 (some ⟨false, none⟩)) =
      (⟨some "HTTP error", some 500, none⟩, [500]) := by
  decide

/-- C6 amended: the retry loop of the redis variant's `fetchLeetCodeUser`
retries only thrown failures (network error/timeout) and unparsable
bodies, up to `MAX_RETRIES = 2` additional attempts with pre-attempt delay
`500 * (attempt + 1)` ms (trace `[500, 1000, 1500]` when all three
attempts fail, final status 500); a parsed 429 reply returns immediately
rate-limited after one attempt; a parsed OK reply without `matchedUser`
returns 404 after one attempt; any other parsed non-OK status (including
5xx) also returns after one attempt. -/
theorem fetchRetry_policy (oracle : Nat → FetchAttempt) (b : RespBody) (s : Nat) :
    ((∀ k, k < 3 →
        (∃ m, oracle k = .throws m) ∨ ∃ ok st, oracle k = .responds ok st none) →
      (fetchLeetCodeUserRetry oracle).2 = [500, 1000, 1500] ∧
      (fetchLeetCodeUserRetry oracle).1.status = some 500 ∧
      (fetchLeetCodeUserRetry oracle).1.matchedUser = none) ∧
    (oracle 0 = .responds false 429 (some b) →
      fetchLeetCodeUserRetry oracle =
        (⟨some "Rate limited by LeetCode API", some 429, none⟩, [500])) ∧
    (oracle 0 = .responds true 200 (some b) → b.hasErrors = false →
      b.matchedUser = none →
      fetchLeetCodeUserRetry oracle =
        (⟨some "User not found", some 404, none⟩, [500])) ∧
    (oracle 0 = .responds false s (some b) → s ≠ 429 → s ≠ 400 →
      fetchLeetCodeUserRetry oracle = (⟨some "HTTP error", some s, none⟩, [500])) := by
  refine ⟨?_, ?_, ?_, ?_⟩
  · intro h
    rcases h 0 (by omega) with ⟨m0, e0⟩ | ⟨ok0, st0, e0⟩ <;>
      rcases h 1 (by omega) with ⟨m1, e1⟩ | ⟨ok1, st1, e1⟩ <;>
        rcases h 2 (by omega) with ⟨m2, e2⟩ | ⟨ok2, st2, e2⟩ <;>
          simp [fetchLeetCodeUserRetry, fetchGo, e0, e1, e2, MAX_RETRIES,
            REQUEST_DELAY_MS]
  · intro h0
    simp [fetchLeetCodeUserRetry, fetchGo, h0, MAX_RETRIES, REQUEST_DELAY_MS]
  · intro h0 hb hmu
    simp [fetchLeetCodeUserRetry, fetchGo, h0, hb, hmu, MAX_RETRIES,
      REQUEST_DELAY_MS]
  · intro h0 h429 h400
    simp [fetchLeetCodeUserRetry, fetchGo, h0, h429, h400, MAX_RETRIES,
      REQUEST_DELAY_MS]

/-- C6 amended witness: three thrown attempts give the linear delay trace
`[500, 1000, 1500]` and a 500 result; a first-attempt parsed 429 returns
at once; a parsed empty `matchedUser` returns 404 at once; a parsed 503
returns at once. -/
theorem fetchRetry_policy_witness :
    ((fetchLeetCodeUserRetry (fun _ => .throws "boom")).2 = [500, 1000, 1500] ∧
      (fetchLeetCodeUserRetry (fun _ => .throws "boom")).1.status = some 500 ∧
      (fetchLeetCodeUserRetry (fun _ => .throws "boom")).1.matchedUser = none) ∧
    fetchLeetCodeUserRetry (fun _ => .responds false 429 (some ⟨false, none⟩)) =
      (⟨some "Rate limited by LeetCode API", some 429, none⟩, [500]) ∧
    fetchLeetCodeUserRetry (fun _ => .responds true 200 (some ⟨false, none⟩)) =
      (⟨some "User not found", some 404, none⟩, [500]) ∧
    fetchLeetCodeUserRetry (fun _ => .responds false 503 (some ⟨false, none⟩)) =
      (⟨some "HTTP error", some 503, none⟩, [500]) :=
  ⟨(fetchRetry_policy (fun _ => .throws "boom") ⟨false, none⟩ 0).1
      (fun k _ => Or.inl ⟨"boom", rfl⟩),
   (fetchRetry_policy (fun _ => .responds false 429 (some ⟨false, none⟩))
      ⟨false, none⟩ 0).2.1 rfl,
   (fetchRetry_policy (fun _ => .responds true 200 (some ⟨false, none⟩))
      ⟨false, none⟩ 0).2.2.1 rfl rfl rfl,
   (fetchRetry_policy (fun _ => .responds false 503 (some ⟨false, none⟩))
      ⟨false, none⟩ 503).2.2.2 rfl (by decide) (by decide)⟩

/-- C2 counterexample: in the total-failure scenario — empty table (so no
fresh cache entry and an empty prior snapshot) and every synchronous
quick-fetch failing — `GET` responds with status 200, an empty `users`
list and no `fromCache` flag, not with the claimed status 500: the
snapshot fallback lives only in the exception handler and this path throws
nothing. -/
theorem GET_total_failure_is_200 :
    (GETmain 0 0 (.ok []) (fun _ => none) (fun _ => true)).1.status = 200 ∧
    (GETmain 0 0 (.ok []) (fun _ => none) (fun _ => true)).1.users = [] ∧
    (GETmain 0 0 (.ok []) (fun _ => none) (fun _ => true)).1.fromCache = none := by
  refine ⟨rfl, ?_, rfl⟩
  simp only [GETmain, fetchUsersInParallel_eq_filterMap]
  rfl

/-- C2 amended: when no exception escapes, an empty cache plus a fully
failing quick-fetch still yields a status-200 response with empty `users`
and no `fromCache`; the `snapshotAll` fallback belongs to the exception
handler alone, where a non-empty snapshot is served with `fromCache` set
at status 200 and an empty (or unreadable) snapshot produces status 500 —
`route.ts` has no 429 outcome. -/
theorem GET_total_failure_amended (nowMs nowSec : Int) (saveOk : String → Bool)
    (msg : String) (rows : List DbUser) :
    ((GETmain nowMs nowSec (.ok []) (fun _ => none) saveOk).1.status = 200 ∧
     (GETmain nowMs nowSec (.ok []) (fun _ => none) saveOk).1.users = [] ∧
     (GETmain nowMs nowSec (.ok []) (fun _ => none) saveOk).1.fromCache = none) ∧
    (rows ≠ [] →
      (GETcatch msg (.ok rows)).1.status = 200 ∧
      (GETcatch msg (.ok rows)).1.fromCache = some true ∧
      (GETcatch msg (.ok rows)).1.users = rows.map rowToUserData) ∧
    (GETcatch msg (.ok [])).1.status = 500 ∧
    (GETcatch msg (.error ())).1.status = 500 := by
  refine ⟨⟨rfl, ?_, rfl⟩, ?_, rfl, rfl⟩
  · simp only [GETmain, fetchUsersInParallel_eq_filterMap]
    rfl
  · intro hne
    have hLen : rows.length > 0 := List.length_pos.mpr hne
    simp only [GETcatch]
    rw [if_pos hLen]
    exact ⟨rfl, rfl, rfl⟩

/-- C2 amended witness: with the one-row snapshot `[mkFreshRow "a"]` the
exception handler serves it at status 200 with `fromCache` set. -/
theorem GET_total_failure_amended_witness :
    (GETcatch "boom" (.ok [mkFreshRow "a"])).1.status = 200 ∧
    (GETcatch "boom" (.ok [mkFreshRow "a"])).1.fromCache = some true ∧
    (GETcatch "boom" (.ok [mkFreshRow "a"])).1.users =
      [mkFreshRow "a"].map rowToUserData :=
  (GET_total_failure_amended 0 0 (fun _ => true) "boom" [mkFreshRow "a"]).2.1
    (by decide)

/-- C7 counterexample: the cycle that answers entirely from fresh cache
(all seventeen roster names fresh in the table) returns without writing
any audit entry — not the claimed exactly one. -/
theorem GET_cache_cycle_writes_no_audit :
    (GETmain 0 0 (.ok (usernames.map mkFreshRow)) (fun _ => none)
        (fun _ => true)).2 = [] ∧
    ¬ ((GETmain 0 0 (.ok (usernames.map mkFreshRow)) (fun _ => none)
        (fun _ => true)).2.length = 1) := by
  decide

/-- C7 amended: audit entries are not one-per-cycle: a cycle served
entirely from fresh cache writes none; a background refresh over a
non-empty username list whose saves all succeed writes exactly one
completion entry (plus one entry per failed save otherwise); the exception
handler writes exactly one failure entry. -/
theorem GET_audit_amended (nowSec : Int) (oracle : String → Option UserProfile)
    (saveOk : String → Bool) (names : List String) (msg : String)
    (snap : Except Unit (List DbUser)) :
    (GETmain 0 nowSec (.ok (usernames.map mkFreshRow)) oracle saveOk).2 = [] ∧
    (names ≠ [] → (∀ s, saveOk s = true) →
      (refreshAudit nowSec oracle saveOk names).length = 1) ∧
    (GETcatch msg snap).2.length = 1 := by
  refine ⟨rfl, ?_, ?_⟩
  · intro hne hsv
    have hE : names.isEmpty = false := by
      cases names with
      | nil => exact absurd rfl hne
      | cons x xs => rfl
    simp only [refreshAudit, hE, Bool.false_eq_true, if_false,
      saveAudit_flatten_nil saveOk hsv]
    rfl
  · cases snap with
    | error e => rfl
    | ok rows =>
      simp only [GETcatch]
      by_cases h : rows.length > 0
      · rw [if_pos h]; rfl
      · rw [if_neg h]; rfl

/-- C7 amended witness: a one-name background refresh with succeeding
saves writes exactly one audit entry, and the exception handler writes
exactly one. -/
theorem GET_audit_amended_witness :
    (GETmain 0 0 (.ok (usernames.map mkFreshRow)) (fun _ => none)
        (fun _ => true)).2 = [] ∧
    (refreshAudit 0 (fun _ => none) (fun _ => true) ["u1"]).length = 1 ∧
    (GETcatch "boom" (.ok [])).2.length = 1 :=
  ⟨(GET_audit_amended 0 (fun _ => none) (fun _ => true) ["u1"] "boom"
      (.ok [])).1,
   (GET_audit_amended 0 (fun _ => none) (fun _ => true) ["u1"] "boom"
      (.ok [])).2.1 (by decide) (fun _ => rfl),
   (GET_audit_amended 0 (fun _ => none) (fun _ => true) ["u1"] "boom"
      (.ok [])).2.2⟩

/-- C9: a five-name roster whose cache holds fresh rows for the first
three names and nothing for the last two partitions into `cachedUsers` =
the three fresh records (in roster order) and `usersToRefresh` = exactly
the two missing names; and whenever the partition is non-empty the
response's `users` is exactly that record list. -/
theorem loadCachedUsers_partition (nowMs nowSec : Int) (a b c d e : String)
    (ra rb rc : DbUser) (rows : List DbUser) (db : Except Unit (List DbUser))
    (oracle : String → Option UserProfile) (saveOk : String → Bool) :
    (rows.find? (fun r => r.id = a) = some ra →
     rows.find? (fun r => r.id = b) = some rb →
     rows.find? (fun r => r.id = c) = some rc →
     rows.find? (fun r => r.id = d) = none →
     rows.find? (fun r => r.id = e) = none →
     isCacheFresh ra.lastFetch nowMs CACHE_EXPIRY_MS = true →
     isCacheFresh rb.lastFetch nowMs CACHE_EXPIRY_MS = true →
     isCacheFresh rc.lastFetch nowMs CACHE_EXPIRY_MS = true →
     loadCachedUsers nowMs (.ok rows) [a, b, c, d, e] =
       ([rowToUserData ra, rowToUserData rb, rowToUserData rc], [d, e])) ∧
    ((loadCachedUsers nowMs db usernames).1.length > 0 →
      (GETmain nowMs nowSec db oracle saveOk).1.users =
        (loadCachedUsers nowMs db usernames).1) := by
  refine ⟨?_, fun h => (GETmain_cache_hit nowMs nowSec db oracle saveOk h).1⟩
  intro ha hb hc hd he fa fb fc
  simp [loadCachedUsers, loadGo, ha, hb, hc, hd, he, fa, fb, fc]

/-- C9 witness: three fresh rows "a" "b" "c" and missing "d" "e" produce
exactly that partition, and the all-fresh roster cycle serves the full
partition as `users`. -/
theorem loadCachedUsers_partition_witness :
    loadCachedUsers 0 (.ok [mkFreshRow "a", mkFreshRow "b", mkFreshRow "c"])
        ["a", "b", "c", "d", "e"] =
      ([rowToUserData (mkFreshRow "a"), rowToUserData (mkFreshRow "b"),
        rowToUserData (mkFreshRow "c")], ["d", "e"]) ∧
    (GETmain 0 0 (.ok (usernames.map mkFreshRow)) (fun _ => none)
        (fun _ => true)).1.users =
      (loadCachedUsers 0 (.ok (usernames.map mkFreshRow)) usernames).1 :=
  ⟨(loadCachedUsers_partition 0 0 "a" "b" "c" "d" "e" (mkFreshRow "a")
      (mkFreshRow "b") (mkFreshRow "c")
      [mkFreshRow "a", mkFreshRow "b", mkFreshRow "c"]
      (.ok (usernames.map mkFreshRow)) (fun _ => none) (fun _ => true)).1
      (by decide) (by decide) (by decide) (by decide) (by decide)
      (by decide) (by decide) (by decide),
   (loadCachedUsers_partition 0 0 "a" "b" "c" "d" "e" (mkFreshRow "a")
      (mkFreshRow "b") (mkFreshRow "c")
      [mkFreshRow "a", mkFreshRow "b", mkFreshRow "c"]
      (.ok (usernames.map mkFreshRow)) (fun _ => none) (fun _ => true)).2
      (by decide)⟩

/-- C10: a roster name whose cache row exists but is stale lands in both
outputs of the partition — its name in `usersToRefresh` and its (stale)
record in the served list — and any cycle with a non-empty partition
answers with `fromCache = true`. -/
theorem stale_entry_served_and_refreshed (nowMs nowSec : Int)
    (rows : List DbUser) (u : String) (row : DbUser) (roster : List String)
    (db : Except Unit (List DbUser)) (oracle : String → Option UserProfile)
    (saveOk : String → Bool) :
    (rows.find? (fun r => r.id = u) = some row →
     isCacheFresh row.lastFetch nowMs CACHE_EXPIRY_MS = false →
     u ∈ roster →
     u ∈ (loadCachedUsers nowMs (.ok rows) roster).2 ∧
     rowToUserData row ∈ (loadCachedUsers nowMs (.ok rows) roster).1) ∧
    ((loadCachedUsers nowMs db usernames).1.length > 0 →
      (GETmain nowMs nowSec db oracle saveOk).1.fromCache = some true) := by
  refine ⟨?_, fun h => (GETmain_cache_hit nowMs nowSec db oracle saveOk h).2⟩
  intro hfind hstale
  induction roster with
  | nil => intro hmem; cases hmem
  | cons x xs ih =>
    intro hmem
    simp only [loadCachedUsers] at ih ⊢
    rcases List.mem_cons.mp hmem with heq | hmem'
    · subst heq
      simp only [loadGo, hfind, hstale, Bool.false_eq_true, if_false]
      exact ⟨List.mem_cons_self _ _, List.mem_cons_self _ _⟩
    · obtain ⟨ih1, ih2⟩ := ih hmem'
      simp only [loadGo]
      cases hf : rows.find? (fun r => r.id = x) with
      | none => exact ⟨List.mem_cons_of_mem _ ih1, ih2⟩
      | some rx =>
        dsimp only
        cases hfr : isCacheFresh rx.lastFetch nowMs CACHE_EXPIRY_MS with
        | true =>
          simp only [hfr, if_true]
          exact ⟨ih1, List.mem_cons_of_mem _ ih2⟩
        | false =>
          simp only [hfr, Bool.false_eq_true, if_false]
          exact ⟨List.mem_cons_of_mem _ ih1, List.mem_cons_of_mem _ ih2⟩

/-- A stale row for "a": written one millisecond before the five-hour TTL
boundary relative to `now = 0`. -/
def staleRowA : DbUser :=
  { mkFreshRow "a" with lastFetch := -CACHE_EXPIRY_MS - 1 }

/-- C10 witness: the stale row for "a" appears in both outputs of the
partition for the roster `["a"]`, and the all-fresh roster cycle has
`fromCache = true`. -/
theorem stale_entry_served_and_refreshed_witness :
    ("a" ∈ (loadCachedUsers 0 (.ok [staleRowA]) ["a"]).2 ∧
     rowToUserData staleRowA ∈ (loadCachedUsers 0 (.ok [staleRowA]) ["a"]).1) ∧
    (GETmain 0 0 (.ok (usernames.map mkFreshRow)) (fun _ => none)
        (fun _ => true)).1.fromCache = some true :=
  ⟨(stale_entry_served_and_refreshed 0 0 [staleRowA] "a" staleRowA ["a"]
      (.ok (usernames.map mkFreshRow)) (fun _ => none) (fun _ => true)).1
      (by decide) (by decide) (by decide),
   (stale_entry_served_and_refreshed 0 0 [staleRowA] "a" staleRowA ["a"]
      (.ok (usernames.map mkFreshRow)) (fun _ => none) (fun _ => true)).2
      (by decide)⟩






